import Mathlib

/- Shallow embedding of the core of the Google Sheets MCP server
   (src/server.py).  Remote Google API calls are abstracted as
   Except-valued functions passed in as parameters; Python dicts with a
   fixed key set are modelled as structures whose Option fields stand for
   possibly-absent (or None) values; Python string truthiness is modelled
   explicitly. -/

namespace GoogleSheetsMCP

/-- Single-quote character, used to spell the literal error messages of
server.py without writing the character itself in this file. -/
def squote : String := String.singleton (Char.ofNat 39)

/-- Python truthiness of an optional string value: present and nonempty. -/
def strTruthy : Option String → Bool
  | none => false
  | some s => s != ""

/- ------------------------------------------------------------------
   Credential resolution (authenticate_google_services, server.py 45-111)
   ------------------------------------------------------------------ -/

/-- Kind of credential a successful resolution produced. -/
inductive CredKind where
  | inline
  | serviceAccount
  | userToken
  | refreshed
  | flowCred
  | adc
deriving DecidableEq

/-- State of a stored user-OAuth credential loaded from the token file:
the valid, expired and refresh_token attributes read by server.py 77-78. -/
structure TokenCred where
  valid : Bool
  expired : Bool
  refresh_token : Bool
deriving DecidableEq

/-- Observable side effects of authenticate_google_services, logged in the
order they happen: parsing the inline blob, reading the service-account
file, reading the token file, refreshing a token, running the OAuth
consent flow, and attempting ambient default discovery. -/
inductive AuthStep where
  | parseInline
  | readServiceFile
  | readTokenFile
  | refreshToken
  | runOauthFlow
  | tryAdc
deriving DecidableEq

/-- Outcome of authenticate_google_services: a credential, an uncaught
exception raised part-way (server.py 53, 74, 79), or the final
all-methods-failed exception raised at server.py 105. -/
inductive AuthOutcome where
  | ok (c : CredKind)
  | raised (msg : String)
  | allFailed (msg : String)
deriving DecidableEq

/-- Environment of authenticate_google_services: which credential sources
are configured and what each underlying I/O action would return.  A field
of type Except String Unit is the outcome the corresponding library call
would have (ok, or an exception with a message). -/
structure AuthEnv where
  credentials_config : Bool
  inline_parse : Except String Unit
  service_account_path : Bool
  service_account_exists : Bool
  service_file_load : Except String Unit
  token_exists : Bool
  token_load : Except String TokenCred
  refresh : Except String Unit
  oauth_flow : Except String Unit
  adc : Except String Unit

/-- Message of the exception raised at server.py 105. -/
def allFailedMsg : String := "All authentication methods failed. Please configure credentials."

/-- Fourth strategy (server.py 95-105): ambient default credentials; on
failure the except block raises the all-methods-failed exception. -/
def auth_adc (env : AuthEnv) : List AuthStep × AuthOutcome :=
  match env.adc with
  | .ok _ => ([.tryAdc], .ok .adc)
  | .error _ => ([.tryAdc], .allFailed allFailedMsg)

/-- Third strategy (server.py 70-91): stored user OAuth token, refreshed
when expired and refreshable, otherwise the interactive consent flow;
a flow failure is caught and falls through to ambient discovery.
Exceptions from loading or refreshing the token are not caught. -/
def auth_oauth (env : AuthEnv) : List AuthStep × AuthOutcome :=
  if env.token_exists then
    match env.token_load with
    | .error e => ([.readTokenFile], .raised e)
    | .ok tc =>
      if tc.valid then ([.readTokenFile], .ok .userToken)
      else if tc.expired && tc.refresh_token then
        match env.refresh with
        | .ok _ => ([.readTokenFile, .refreshToken], .ok .refreshed)
        | .error e => ([.readTokenFile, .refreshToken], .raised e)
      else
        match env.oauth_flow with
        | .ok _ => ([.readTokenFile, .runOauthFlow], .ok .flowCred)
        | .error _ =>
          let r := auth_adc env
          ([.readTokenFile, .runOauthFlow] ++ r.1, r.2)
  else
    match env.oauth_flow with
    | .ok _ => ([.runOauthFlow], .ok .flowCred)
    | .error _ =>
      let r := auth_adc env
      ([.runOauthFlow] ++ r.1, r.2)

/-- Second strategy (server.py 56-67): service-account file, only when the
path is configured and the file exists; a load failure is caught and falls
through to the OAuth strategy. -/
def auth_service_file (env : AuthEnv) : List AuthStep × AuthOutcome :=
  if env.service_account_path && env.service_account_exists then
    match env.service_file_load with
    | .ok _ => ([.readServiceFile], .ok .serviceAccount)
    | .error _ =>
      let r := auth_oauth env
      ([.readServiceFile] ++ r.1, r.2)
  else auth_oauth env

/-- Credential resolution chain of authenticate_google_services
(server.py 45-111).  The first strategy (server.py 52-53) parses the
inline CREDENTIALS_CONFIG blob; its parse failure is not caught and
propagates.  Returns the effect log together with the outcome. -/
def authenticate_google_services (env : AuthEnv) : List AuthStep × AuthOutcome :=
  if env.credentials_config then
    match env.inline_parse with
    | .ok _ => ([.parseInline], .ok .inline)
    | .error e => ([.parseInline], .raised e)
  else auth_service_file env

/- ------------------------------------------------------------------
   Session lifecycle (SpreadsheetContext / ensure_authenticated,
   server.py 36-42 and 129-145)
   ------------------------------------------------------------------ -/

/-- The SpreadsheetContext dataclass (server.py 36-42); the source field
written _authenticated is called authenticated here.  S is the opaque type
of the two service client handles. -/
structure SpreadsheetContext (S : Type) where
  sheets_service : Option S
  drive_service : Option S
  folder_id : Option String
  authenticated : Bool
deriving DecidableEq

/-- The ensure_authenticated helper (server.py 129-145), with the outcome
of authenticate_google_services abstracted as the resolver argument.
Returns whether the resolver was invoked, the post-call context, and the
value returned or the exception raised. -/
def ensure_authenticated {S : Type} (ctx : SpreadsheetContext S)
    (resolver : Except String (S × S)) :
    Bool × SpreadsheetContext S × Except String (SpreadsheetContext S) :=
  if ctx.authenticated then (false, ctx, .ok ctx)
  else
    match resolver with
    | .ok sd =>
      let ctx2 : SpreadsheetContext S :=
        { ctx with sheets_service := some sd.1, drive_service := some sd.2,
                   authenticated := true }
      (true, ctx2, .ok ctx2)
    | .error e => (true, ctx, .error ("Authentication failed: " ++ e))

/- ------------------------------------------------------------------
   Range qualification (server.py 194-198, 231-234, 1160-1164)
   ------------------------------------------------------------------ -/

/-- Range construction shared by get_sheet_data, get_sheet_formulas and
clear_sheet_data: when the optional range argument is truthy the full
range is sheet!range, otherwise the bare sheet name. -/
def full_range (sheet : String) (range : Option String) : String :=
  if strTruthy range then sheet ++ "!" ++ range.getD "" else sheet

/- ------------------------------------------------------------------
   Lookup-by-name operations (add_rows, add_columns, delete_sheet,
   rename_sheet, copy_sheet, get_sheet_properties)
   ------------------------------------------------------------------ -/

/-- Per-sheet properties consumed from the spreadsheet metadata:
sheets[].properties.{title,sheetId}. -/
structure SheetProps where
  title : String
  sheetId : Int
deriving DecidableEq

/-- The sheet-id lookup loop used by add_rows, add_columns, delete_sheet,
rename_sheet and copy_sheet: first sheet whose title equals the requested
name (server.py 358-361 and the analogous loops). -/
def find_sheet_id : List SheetProps → String → Option Int
  | [], _ => none
  | s :: rest, sheet => if s.title = sheet then some s.sheetId else find_sheet_id rest sheet

/-- The properties lookup loop of get_sheet_properties (server.py
1133-1135): properties of the first sheet whose title matches. -/
def find_sheet_props : List SheetProps → String → Option SheetProps
  | [], _ => none
  | s :: rest, sheet => if s.title = sheet then some s else find_sheet_props rest sheet

/-- Value returned by an operation handler: a structured error dict, or
the ordinary payload. -/
inductive OpResult (β : Type) where
  | error (msg : String)
  | ok (b : β)
deriving DecidableEq

/-- The sheet-not-found message used by add_rows, add_columns,
delete_sheet, rename_sheet and get_sheet_properties. -/
def notFoundMsg (sheet : String) : String :=
  "Sheet " ++ squote ++ sheet ++ squote ++ " not found"

/-- The source-sheet-not-found message used by copy_sheet (server.py 547). -/
def srcNotFoundMsg (sheet : String) : String :=
  "Source sheet " ++ squote ++ sheet ++ squote ++ " not found"

/-- The insertDimension range object built by add_rows and add_columns. -/
structure DimensionRange where
  sheetId : Int
  dimension : String
  startIndex : Int
  endIndex : Int
deriving DecidableEq

/-- The insertDimension request body built by add_rows and add_columns. -/
structure InsertDimensionRequest where
  range : DimensionRange
  inheritFromBefore : Bool
deriving DecidableEq

/-- The add_rows handler (server.py 333-389) up to the batchUpdate call:
resolves the sheet name and builds the insertDimension request; the
backend response is pass-through and is modelled as the request sent. -/
def add_rows (sheets : List SheetProps) (sheet : String) (count : Int)
    (start_row : Option Int) : OpResult InsertDimensionRequest :=
  match find_sheet_id sheets sheet with
  | none => .error (notFoundMsg sheet)
  | some sid =>
    .ok { range := { sheetId := sid, dimension := "ROWS",
                     startIndex := start_row.getD 0,
                     endIndex := start_row.getD 0 + count },
          inheritFromBefore := match start_row with
            | none => false
            | some s => decide (0 < s) }

/-- The add_columns handler (server.py 433-489) up to the batchUpdate
call, analogous to add_rows with dimension COLUMNS. -/
def add_columns (sheets : List SheetProps) (sheet : String) (count : Int)
    (start_column : Option Int) : OpResult InsertDimensionRequest :=
  match find_sheet_id sheets sheet with
  | none => .error (notFoundMsg sheet)
  | some sid =>
    .ok { range := { sheetId := sid, dimension := "COLUMNS",
                     startIndex := start_column.getD 0,
                     endIndex := start_column.getD 0 + count },
          inheritFromBefore := match start_column with
            | none => false
            | some s => decide (0 < s) }

/-- The deleteSheet request body built by delete_sheet. -/
structure DeleteSheetRequest where
  sheetId : Int
deriving DecidableEq

/-- The delete_sheet handler (server.py 1057-1104) up to the batchUpdate
call. -/
def delete_sheet (sheets : List SheetProps) (sheet : String) : OpResult DeleteSheetRequest :=
  match find_sheet_id sheets sheet with
  | none => .error (notFoundMsg sheet)
  | some sid => .ok { sheetId := sid }

/-- The updateSheetProperties request body built by rename_sheet. -/
structure UpdateSheetPropertiesRequest where
  sheetId : Int
  title : String
  fields : String
deriving DecidableEq

/-- The rename_sheet handler (server.py 591-643) up to the batchUpdate
call. -/
def rename_sheet (sheets : List SheetProps) (sheet : String) (new_name : String) :
    OpResult UpdateSheetPropertiesRequest :=
  match find_sheet_id sheets sheet with
  | none => .error (notFoundMsg sheet)
  | some sid => .ok { sheetId := sid, title := new_name, fields := "title" }

/-- The get_sheet_properties handler (server.py 1108-1137): properties of
the matching sheet, or the structured not-found error. -/
def get_sheet_properties (sheets : List SheetProps) (sheet : String) : OpResult SheetProps :=
  match find_sheet_props sheets sheet with
  | none => .error (notFoundMsg sheet)
  | some p => .ok p

/-- Fields of the copyTo reply consumed by copy_sheet (server.py 559-561):
title and sheetId of the newly copied sheet. -/
structure CopyToResult where
  title : Option String
  sheetId : Option Int
deriving DecidableEq

/-- Value returned by copy_sheet on the happy path: the copy reply and,
when a rename was issued, the rename reply. -/
structure CopyValue (γ : Type) where
  copy : CopyToResult
  rename : Option γ
deriving DecidableEq

/-- The copy_sheet handler (server.py 516-588): resolve the source sheet,
copy it, and rename the copy when the copied title differs from the
requested destination name.  copyTo and renameOp are the two backend
calls; their exceptions are not caught and propagate (the outer Except). -/
def copy_sheet {γ : Type} (copyTo : Int → Except String CopyToResult)
    (renameOp : Int → String → Except String γ)
    (src_sheets : List SheetProps) (src_sheet : String) (dst_sheet : String) :
    Except String (OpResult (CopyValue γ)) :=
  match find_sheet_id src_sheets src_sheet with
  | none => .ok (.error (srcNotFoundMsg src_sheet))
  | some sid =>
    match copyTo sid with
    | .error e => .error e
    | .ok cr =>
      match cr.title with
      | some t =>
        if t ≠ dst_sheet then
          match cr.sheetId with
          | none => .error "KeyError: sheetId"
          | some cid =>
            match renameOp cid dst_sheet with
            | .error e => .error e
            | .ok rr => .ok (.ok { copy := cr, rename := some rr })
        else .ok (.ok { copy := cr, rename := none })
      | none => .ok (.ok { copy := cr, rename := none })

/- ------------------------------------------------------------------
   Multi-range fetch (get_multiple_sheet_data, server.py 646-692)
   ------------------------------------------------------------------ -/

/-- One query dict of get_multiple_sheet_data; each key may be absent. -/
structure Query where
  spreadsheet_id : Option String
  sheet : Option String
  range : Option String
deriving DecidableEq

/-- The missing-keys message of server.py 672. -/
def missingKeysMsg : String := "Missing required keys (spreadsheet_id, sheet, range)"

/-- One result dict of get_multiple_sheet_data: the original query fields
plus either a data key or an error key.  α is the opaque cell-value type. -/
structure QueryOut (α : Type) where
  query : Query
  data : Option (List (List α))
  error : Option String
deriving DecidableEq

/-- Python truthiness of all three required query keys
(the all check at server.py 671). -/
def completeQuery (q : Query) : Bool :=
  strTruthy q.spreadsheet_id && strTruthy q.sheet && strTruthy q.range

/-- Body of the per-query loop of get_multiple_sheet_data (server.py
666-690).  fetch is the values().get backend call taking spreadsheet id
and full range, returning the optional values key of the response; the
result dict is paired with the backend call made for this query, if any. -/
def processQueryCall {α : Type}
    (fetch : String → String → Except String (Option (List (List α))))
    (q : Query) : QueryOut α × Option (String × String) :=
  if completeQuery q then
    let sid := q.spreadsheet_id.getD ""
    let fr := (q.sheet.getD "") ++ "!" ++ (q.range.getD "")
    match fetch sid fr with
    | .ok v => ({ query := q, data := some (v.getD []), error := none }, some (sid, fr))
    | .error e => ({ query := q, data := none, error := some e }, some (sid, fr))
  else
    ({ query := q, data := none, error := some missingKeysMsg }, none)

/-- The get_multiple_sheet_data handler (server.py 646-692): processes
every query in order, collecting the result dicts and the log of backend
calls actually made. -/
def get_multiple_sheet_data {α : Type}
    (fetch : String → String → Except String (Option (List (List α)))) :
    List Query → List (QueryOut α) × List (String × String)
  | [] => ([], [])
  | q :: rest =>
    let pc := processQueryCall fetch q
    let r := get_multiple_sheet_data fetch rest
    (pc.1 :: r.1, pc.2.toList ++ r.2)

/- ------------------------------------------------------------------
   Multi-recipient sharing (share_spreadsheet, server.py 976-1054)
   ------------------------------------------------------------------ -/

/-- One recipient dict of share_spreadsheet; each key may be absent. -/
structure Recipient where
  email_address : Option String
  role : Option String
deriving DecidableEq

/-- One entry of the successes or failures lists of share_spreadsheet;
Option fields stand for keys absent from the corresponding dict. -/
structure ShareEntry where
  email_address : Option String
  role : Option String
  permissionId : Option String
  error : Option String
deriving DecidableEq

/-- Which list the per-recipient body appends its entry to. -/
inductive ShareOutcome where
  | success (e : ShareEntry)
  | failure (e : ShareEntry)
deriving DecidableEq

/-- The missing-email message of server.py 1011. -/
def missingEmailMsg : String := "Missing email_address in recipient entry."

/-- The invalid-role message of server.py 1018. -/
def invalidRoleMsg (role : String) : String :=
  "Invalid role " ++ squote ++ role ++ squote ++ ". Must be " ++ squote ++ "reader"
    ++ squote ++ ", " ++ squote ++ "commenter" ++ squote ++ ", or " ++ squote
    ++ "writer" ++ squote ++ "."

/-- Body of the per-recipient loop of share_spreadsheet (server.py
1004-1052).  op is the permissions().create backend call taking email and
role and returning the optional id of its reply; on failure its message is
the processed error detail.  The outcome is paired with the backend call
made for this recipient, if any. -/
def process_recipient (op : String → String → Except String (Option String))
    (r : Recipient) : ShareOutcome × Option (String × String) :=
  let role := r.role.getD "writer"
  if !(strTruthy r.email_address) then
    (.failure { email_address := none, role := none, permissionId := none,
                error := some missingEmailMsg }, none)
  else if !(role == "reader" || role == "commenter" || role == "writer") then
    (.failure { email_address := r.email_address, role := none, permissionId := none,
                error := some (invalidRoleMsg role) }, none)
  else
    match op (r.email_address.getD "") role with
    | .ok pid =>
      (.success { email_address := r.email_address, role := some role,
                  permissionId := pid, error := none },
       some (r.email_address.getD "", role))
    | .error e =>
      (.failure { email_address := r.email_address, role := none, permissionId := none,
                  error := some ("Failed to share: " ++ e) },
       some (r.email_address.getD "", role))

/-- The share_spreadsheet handler (server.py 976-1054): processes every
recipient in order, collecting successes, failures and the log of backend
calls actually made. -/
def share_spreadsheet (op : String → String → Except String (Option String)) :
    List Recipient → List ShareEntry × List ShareEntry × List (String × String)
  | [] => ([], [], [])
  | r :: rest =>
    let pc := process_recipient op r
    let tailr := share_spreadsheet op rest
    match pc.1 with
    | .success e => (e :: tailr.1, tailr.2.1, pc.2.toList ++ tailr.2.2)
    | .failure e => (tailr.1, e :: tailr.2.1, pc.2.toList ++ tailr.2.2)

/-- Success entry produced for a recipient, when its processing succeeds. -/
def shareSuccess (op : String → String → Except String (Option String))
    (r : Recipient) : Option ShareEntry :=
  match (process_recipient op r).1 with
  | .success e => some e
  | .failure _ => none

/-- Failure entry produced for a recipient, when its processing fails. -/
def shareFailure (op : String → String → Except String (Option String))
    (r : Recipient) : Option ShareEntry :=
  match (process_recipient op r).1 with
  | .success _ => none
  | .failure e => some e

/- ------------------------------------------------------------------
   Multi-spreadsheet summary (get_multiple_spreadsheet_summary,
   server.py 695-782)
   ------------------------------------------------------------------ -/

/-- Per-sheet metadata consumed by the summary:
sheets(properties(title,sheetId)); either key may be absent. -/
structure SheetMeta where
  title : Option String
  sheetId : Option Int
deriving DecidableEq

/-- Spreadsheet metadata consumed by the summary: properties.title and
the sheet list. -/
structure SpreadsheetMeta where
  title : Option String
  sheets : List SheetMeta
deriving DecidableEq

/-- One sheet summary dict (server.py 735-741). -/
structure SheetSummary (α : Type) where
  title : Option String
  sheet_id : Option Int
  headers : List α
  first_rows : List (List α)
  error : Option String
deriving DecidableEq

/-- One spreadsheet summary dict (server.py 716-721). -/
structure SpreadsheetSummary (α : Type) where
  spreadsheet_id : String
  title : Option String
  sheets : List (SheetSummary α)
  error : Option String
deriving DecidableEq

/-- Body of the per-sheet loop of get_multiple_spreadsheet_summary
(server.py 732-773): a falsy sheet title is an error entry; otherwise the
first max_row rows are fetched, the first row becoming headers and rows
2..max_row becoming first_rows; a fetch failure is caught into the error
key. -/
def summarize_sheet {α : Type}
    (valuesFetch : String → String → Except String (Option (List (List α))))
    (spreadsheet_id : String) (max_row : Int) (sm : SheetMeta) : SheetSummary α :=
  if !(strTruthy sm.title) then
    { title := sm.title, sheet_id := sm.sheetId, headers := [], first_rows := [],
      error := some "Sheet title not found" }
  else
    let t := sm.title.getD ""
    match valuesFetch spreadsheet_id (t ++ "!A1:" ++ toString max_row) with
    | .error e =>
      { title := sm.title, sheet_id := sm.sheetId, headers := [], first_rows := [],
        error := some ("Error fetching data for sheet " ++ t ++ ": " ++ e) }
    | .ok vOpt =>
      match vOpt.getD [] with
      | [] =>
        { title := sm.title, sheet_id := sm.sheetId, headers := [], first_rows := [],
          error := none }
      | h :: rest =>
        { title := sm.title, sheet_id := sm.sheetId, headers := h,
          first_rows := if rest.isEmpty then [] else rest.take (max_row - 1).toNat,
          error := none }

/-- Body of the per-spreadsheet loop of get_multiple_spreadsheet_summary
(server.py 715-780): a metadata fetch failure is caught into the error key
with the title and sheet list left at their initial values. -/
def summarize_spreadsheet {α : Type}
    (metaFetch : String → Except String SpreadsheetMeta)
    (valuesFetch : String → String → Except String (Option (List (List α))))
    (rows_to_fetch : Int) (sid : String) : SpreadsheetSummary α :=
  match metaFetch sid with
  | .error e =>
    { spreadsheet_id := sid, title := none, sheets := [],
      error := some ("Error fetching spreadsheet " ++ sid ++ ": " ++ e) }
  | .ok meta =>
    { spreadsheet_id := sid, title := some (meta.title.getD "Unknown Title"),
      sheets := meta.sheets.map (summarize_sheet valuesFetch sid (max 1 rows_to_fetch)),
      error := none }

/-- The get_multiple_spreadsheet_summary handler (server.py 695-782):
summarizes every spreadsheet id in order. -/
def get_multiple_spreadsheet_summary {α : Type}
    (metaFetch : String → Except String SpreadsheetMeta)
    (valuesFetch : String → String → Except String (Option (List (List α))))
    (rows_to_fetch : Int) : List String → List (SpreadsheetSummary α)
  | [] => []
  | sid :: rest =>
    summarize_spreadsheet metaFetch valuesFetch rows_to_fetch sid ::
      get_multiple_spreadsheet_summary metaFetch valuesFetch rows_to_fetch rest

/- ------------------------------------------------------------------
   Spreadsheet creation (create_spreadsheet, server.py 830-890)
   ------------------------------------------------------------------ -/

/-- Fields of the spreadsheets().create reply consumed by
create_spreadsheet: the id, properties.title, and the titles of the
created sheets. -/
structure CreatedSpreadsheet where
  spreadsheetId : Option String
  title : Option String
  sheet_titles : List (Option String)
deriving DecidableEq

/-- Value returned by create_spreadsheet (server.py 885-890). -/
structure CreateResult where
  spreadsheetId : Option String
  title : String
  sheets : List String
  folder : String
deriving DecidableEq

/-- The move-to-folder step of create_spreadsheet (server.py 863-883):
the files().get plus files().update calls, whose failure is caught and
only logged as a warning. -/
def move_to_folder (move : Except String Unit) : Except String Unit :=
  match move with
  | .ok _ => .ok ()
  | .error _ => .ok ()

/-- The create_spreadsheet handler (server.py 830-890).  create is the
spreadsheets().create backend call and move the drive move step; the move
is attempted only when a folder id is configured and truthy, and its
failure never fails the operation. -/
def create_spreadsheet (title : String) (folder_id : Option String)
    (create : Except String CreatedSpreadsheet) (move : Except String Unit) :
    Except String CreateResult :=
  match create with
  | .error e => .error e
  | .ok sp =>
    match (if strTruthy folder_id then move_to_folder move else .ok ()) with
    | .error e => .error e
    | .ok _ =>
      .ok { spreadsheetId := sp.spreadsheetId,
            title := sp.title.getD title,
            sheets := sp.sheet_titles.map (fun t => t.getD "Sheet1"),
            folder := if strTruthy folder_id then folder_id.getD "" else "root" }

/- ------------------------------------------------------------------
   Helper lemmas
   ------------------------------------------------------------------ -/

theorem find_sheet_props_eq_none (sheets : List SheetProps) (sheet : String)
    (h : find_sheet_id sheets sheet = none) : find_sheet_props sheets sheet = none := by
  induction sheets with
  | nil => rfl
  | cons s rest ih =>
    unfold find_sheet_id at h
    unfold find_sheet_props
    by_cases hs : s.title = sheet
    · simp [hs] at h
    · simp only [hs, if_false] at h ⊢
      exact ih h

theorem gm_results_eq_map {α : Type}
    (fetch : String → String → Except String (Option (List (List α)))) (qs : List Query) :
    (get_multiple_sheet_data fetch qs).1 = qs.map (fun q => (processQueryCall fetch q).1) := by
  induction qs with
  | nil => rfl
  | cons q rest ih => simp [get_multiple_sheet_data, ih]

theorem gm_calls_eq_filterMap {α : Type}
    (fetch : String → String → Except String (Option (List (List α)))) (qs : List Query) :
    (get_multiple_sheet_data fetch qs).2 = qs.filterMap (fun q => (processQueryCall fetch q).2) := by
  induction qs with
  | nil => rfl
  | cons q rest ih =>
    simp only [get_multiple_sheet_data, List.filterMap_cons]
    cases (processQueryCall fetch q).2 <;> simp [ih]

theorem share_succ_eq_filterMap (op : String → String → Except String (Option String))
    (rs : List Recipient) :
    (share_spreadsheet op rs).1 = rs.filterMap (shareSuccess op) := by
  induction rs with
  | nil => rfl
  | cons r rest ih =>
    simp only [share_spreadsheet, List.filterMap_cons, shareSuccess]
    cases h : (process_recipient op r).1 <;> simp [h, ih]

theorem share_fail_eq_filterMap (op : String → String → Except String (Option String))
    (rs : List Recipient) :
    (share_spreadsheet op rs).2.1 = rs.filterMap (shareFailure op) := by
  induction rs with
  | nil => rfl
  | cons r rest ih =>
    simp only [share_spreadsheet, List.filterMap_cons, shareFailure]
    cases h : (process_recipient op r).1 <;> simp [h, ih]

theorem share_calls_eq_filterMap (op : String → String → Except String (Option String))
    (rs : List Recipient) :
    (share_spreadsheet op rs).2.2 = rs.filterMap (fun r => (process_recipient op r).2) := by
  induction rs with
  | nil => rfl
  | cons r rest ih =>
    simp only [share_spreadsheet, List.filterMap_cons]
    cases h : (process_recipient op r).1 <;>
      cases hc : (process_recipient op r).2 <;> simp [h, hc, ih]

theorem gms_eq_map {α : Type} (metaFetch : String → Except String SpreadsheetMeta)
    (valuesFetch : String → String → Except String (Option (List (List α))))
    (rows_to_fetch : Int) (ids : List String) :
    get_multiple_spreadsheet_summary metaFetch valuesFetch rows_to_fetch ids
      = ids.map (summarize_spreadsheet metaFetch valuesFetch rows_to_fetch) := by
  induction ids with
  | nil => rfl
  | cons sid rest ih => simp [get_multiple_spreadsheet_summary, ih]

theorem processQueryCall_exclusive {α : Type}
    (fetch : String → String → Except String (Option (List (List α)))) (q : Query) :
    ¬((processQueryCall fetch q).1.data.isSome = true
      ∧ (processQueryCall fetch q).1.error.isSome = true) := by
  rintro ⟨hd, he⟩
  unfold processQueryCall at hd he
  by_cases hc : completeQuery q = true
  · simp only [hc, if_true] at hd he
    cases hf : fetch (q.spreadsheet_id.getD "")
        ((q.sheet.getD "") ++ "!" ++ (q.range.getD "")) <;> simp [hf] at hd he
  · simp [hc] at hd

theorem process_recipient_success_shape (op : String → String → Except String (Option String))
    (r : Recipient) (e : ShareEntry) (h : (process_recipient op r).1 = ShareOutcome.success e) :
    e.error = none := by
  unfold process_recipient at h
  by_cases h1 : strTruthy r.email_address
  · by_cases h2 : (r.role.getD "writer" == "reader" || r.role.getD "writer" == "commenter"
        || r.role.getD "writer" == "writer") = true
    · simp only [h1, h2] at h
      cases ho : op (r.email_address.getD "") (r.role.getD "writer") <;> simp [ho] at h
      · rw [← h]
    · simp [h1, h2] at h
  · simp [h1] at h

theorem process_recipient_failure_shape (op : String → String → Except String (Option String))
    (r : Recipient) (e : ShareEntry) (h : (process_recipient op r).1 = ShareOutcome.failure e) :
    e.permissionId = none ∧ e.error.isSome = true := by
  unfold process_recipient at h
  by_cases h1 : strTruthy r.email_address
  · by_cases h2 : (r.role.getD "writer" == "reader" || r.role.getD "writer" == "commenter"
        || r.role.getD "writer" == "writer") = true
    · simp only [h1, h2] at h
      cases ho : op (r.email_address.getD "") (r.role.getD "writer") <;> simp [ho] at h
      · rw [← h]; exact ⟨rfl, rfl⟩
    · simp only [h1, h2] at h
      simp at h
      rw [← h]; exact ⟨rfl, rfl⟩
  · simp only [h1] at h
    simp at h
    rw [← h]; exact ⟨rfl, rfl⟩

theorem summarize_spreadsheet_error_shape {α : Type}
    (metaFetch : String → Except String SpreadsheetMeta)
    (valuesFetch : String → String → Except String (Option (List (List α))))
    (rows_to_fetch : Int) (sid : String) :
    ((summarize_spreadsheet metaFetch valuesFetch rows_to_fetch sid).error.isSome = true →
      (summarize_spreadsheet metaFetch valuesFetch rows_to_fetch sid).title = none
      ∧ (summarize_spreadsheet metaFetch valuesFetch rows_to_fetch sid).sheets = [])
    ∧ ((summarize_spreadsheet metaFetch valuesFetch rows_to_fetch sid).error = none →
      (summarize_spreadsheet metaFetch valuesFetch rows_to_fetch sid).title.isSome = true) := by
  unfold summarize_spreadsheet
  cases hm : metaFetch sid <;> simp [hm]

theorem summarize_sheet_error_shape {α : Type}
    (valuesFetch : String → String → Except String (Option (List (List α))))
    (sid : String) (max_row : Int) (sm : SheetMeta)
    (h : (summarize_sheet valuesFetch sid max_row sm).error.isSome = true) :
    (summarize_sheet valuesFetch sid max_row sm).headers = []
    ∧ (summarize_sheet valuesFetch sid max_row sm).first_rows = [] := by
  by_cases ht : strTruthy sm.title
  · cases hv : valuesFetch sid ((sm.title.getD "") ++ "!A1:" ++ toString max_row) with
    | error e => constructor <;> simp [summarize_sheet, ht, hv]
    | ok vOpt =>
      cases hl : vOpt.getD [] with
      | nil => exact absurd h (by simp [summarize_sheet, ht, hv, hl])
      | cons a as => exact absurd h (by simp [summarize_sheet, ht, hv, hl])
  · constructor <;> simp [summarize_sheet, ht]

theorem shareSuccess_eq_some (op : String → String → Except String (Option String))
    (r : Recipient) (e : ShareEntry) (h : shareSuccess op r = some e) :
    (process_recipient op r).1 = ShareOutcome.success e := by
  unfold shareSuccess at h
  cases hp : (process_recipient op r).1 with
  | success e2 => rw [hp] at h; simp at h; subst h; rfl
  | failure e2 => rw [hp] at h; simp at h

theorem shareFailure_eq_some (op : String → String → Except String (Option String))
    (r : Recipient) (e : ShareEntry) (h : shareFailure op r = some e) :
    (process_recipient op r).1 = ShareOutcome.failure e := by
  unfold shareFailure at h
  cases hp : (process_recipient op r).1 with
  | success e2 => rw [hp] at h; simp at h
  | failure e2 => rw [hp] at h; simp at h; subst h; rfl

theorem summarize_spreadsheet_sheets_mem {α : Type}
    (metaFetch : String → Except String SpreadsheetMeta)
    (valuesFetch : String → String → Except String (Option (List (List α))))
    (rows_to_fetch : Int) (sid : String) (sh : SheetSummary α)
    (h : sh ∈ (summarize_spreadsheet metaFetch valuesFetch rows_to_fetch sid).sheets) :
    ∃ sm, sh = summarize_sheet valuesFetch sid (max 1 rows_to_fetch) sm := by
  unfold summarize_spreadsheet at h
  cases hm : metaFetch sid with
  | error e => rw [hm] at h; simp at h
  | ok meta =>
    rw [hm] at h
    simp only [List.mem_map] at h
    obtain ⟨sm, _, rfl⟩ := h
    exact ⟨sm, rfl⟩

theorem auth_adc_allFailed (env : AuthEnv) (msg : String)
    (h : (auth_adc env).2 = AuthOutcome.allFailed msg) :
    msg = allFailedMsg ∧ ∃ e, env.adc = Except.error e := by
  unfold auth_adc at h
  cases ha : env.adc with
  | ok u => rw [ha] at h; simp at h
  | error e =>
    rw [ha] at h
    simp at h
    exact ⟨h.symm, e, rfl⟩

theorem auth_oauth_allFailed (env : AuthEnv) (msg : String)
    (h : (auth_oauth env).2 = AuthOutcome.allFailed msg) :
    msg = allFailedMsg
    ∧ (∃ e, env.oauth_flow = Except.error e)
    ∧ (env.token_exists = false
        ∨ ∃ tc, env.token_load = Except.ok tc ∧ tc.valid = false
            ∧ (tc.expired && tc.refresh_token) = false)
    ∧ (∃ e, env.adc = Except.error e) := by
  unfold auth_oauth at h
  by_cases ht : env.token_exists = true
  · simp only [ht, if_true] at h
    cases hl : env.token_load with
    | error e => rw [hl] at h; simp at h
    | ok tc =>
      rw [hl] at h
      by_cases hv : tc.valid = true
      · simp [hv] at h
      · simp only [Bool.not_eq_true] at hv
        simp only [hv, Bool.false_eq_true, if_false] at h
        by_cases hr : (tc.expired && tc.refresh_token) = true
        · simp only [hr, if_true] at h
          cases hrf : env.refresh <;> rw [hrf] at h <;> simp at h
        · simp only [Bool.not_eq_true] at hr
          simp only [hr, Bool.false_eq_true, if_false] at h
          cases hf : env.oauth_flow with
          | ok u => rw [hf] at h; simp at h
          | error e =>
            rw [hf] at h
            have h2 : (auth_adc env).2 = AuthOutcome.allFailed msg := by simpa using h
            obtain ⟨hm, he⟩ := auth_adc_allFailed env msg h2
            exact ⟨hm, ⟨e, rfl⟩, Or.inr ⟨tc, rfl, hv, hr⟩, he⟩
  · simp only [Bool.not_eq_true] at ht
    simp only [ht, Bool.false_eq_true, if_false] at h
    cases hf : env.oauth_flow with
    | ok u => rw [hf] at h; simp at h
    | error e =>
      rw [hf] at h
      have h2 : (auth_adc env).2 = AuthOutcome.allFailed msg := by simpa using h
      obtain ⟨hm, he⟩ := auth_adc_allFailed env msg h2
      exact ⟨hm, ⟨e, rfl⟩, Or.inl ht, he⟩

theorem auth_service_allFailed (env : AuthEnv) (msg : String)
    (h : (auth_service_file env).2 = AuthOutcome.allFailed msg) :
    (env.service_account_path = false ∨ env.service_account_exists = false
      ∨ ∃ e, env.service_file_load = Except.error e)
    ∧ (auth_oauth env).2 = AuthOutcome.allFailed msg := by
  unfold auth_service_file at h
  by_cases hp : (env.service_account_path && env.service_account_exists) = true
  · simp only [hp, if_true] at h
    cases hl : env.service_file_load with
    | ok u => rw [hl] at h; simp at h
    | error e =>
      rw [hl] at h
      have h2 : (auth_oauth env).2 = AuthOutcome.allFailed msg := by simpa using h
      exact ⟨Or.inr (Or.inr ⟨e, rfl⟩), h2⟩
  · have h2 : (auth_oauth env).2 = AuthOutcome.allFailed msg := by
      simp only [Bool.not_eq_true] at hp
      simpa [hp] using h
    refine ⟨?_, h2⟩
    rw [Bool.and_eq_true] at hp
    rcases not_and_or.mp hp with ha | hb
    · exact Or.inl (by simpa using ha)
    · exact Or.inr (Or.inl (by simpa using hb))

/- ------------------------------------------------------------------
   Claim theorems
   ------------------------------------------------------------------ -/

/-- C2: ensure_authenticated is idempotent and leaves the session
unchanged on failure: an already-authenticated context is returned as-is
without invoking credential resolution; otherwise resolution is attempted
and on success the two client handles and the authenticated flag are set,
while on failure no field of the context changes and a subsequent call
invokes the resolver again. -/
theorem C2_ensure_authenticated_contract {S : Type} (ctx : SpreadsheetContext S)
    (resolver : Except String (S × S)) :
    (ctx.authenticated = true → ensure_authenticated ctx resolver = (false, ctx, .ok ctx))
    ∧ (ctx.authenticated = false →
        (∀ s d, resolver = .ok (s, d) →
          ensure_authenticated ctx resolver =
            (true,
             { sheets_service := some s, drive_service := some d,
               folder_id := ctx.folder_id, authenticated := true },
             .ok { sheets_service := some s, drive_service := some d,
                   folder_id := ctx.folder_id, authenticated := true }))
        ∧ (∀ e, resolver = .error e →
            ensure_authenticated ctx resolver
              = (true, ctx, .error ("Authentication failed: " ++ e))
            ∧ ∀ resolver2 : Except String (S × S),
                (ensure_authenticated ctx resolver2).1 = true)) := by
  obtain ⟨ss, ds, fid, au⟩ := ctx
  refine ⟨fun h => ?_, fun h => ⟨fun s d hr => ?_, fun e hr => ⟨?_, fun r2 => ?_⟩⟩⟩
  · simp at h
    simp [ensure_authenticated, h]
  · simp at h
    simp [ensure_authenticated, h, hr]
  · simp at h
    simp [ensure_authenticated, h, hr]
  · simp at h
    cases r2 <;> simp [ensure_authenticated, h]

/-- Witness for C2 at a concrete unauthenticated context and a failing
resolver. -/
theorem C2_witness :
    ensure_authenticated (S := Nat) ⟨none, none, some "f", false⟩ (Except.error "boom")
      = (true, ⟨none, none, some "f", false⟩,
         Except.error ("Authentication failed: " ++ "boom")) :=
  (((C2_ensure_authenticated_contract ⟨none, none, some "f", false⟩
      (Except.error "boom")).2 rfl).2 "boom" rfl).1

/-- C4: the insertDimension request built by add_rows and add_columns has
startIndex 0 and endIndex count when no start index is given, startIndex s
and endIndex s plus count when s is given, and inheritFromBefore holds
exactly when an explicit start index strictly greater than 0 was given. -/
theorem C4_insert_dimension_request (sheets : List SheetProps) (sheet : String)
    (count : Int) (sid : Int) (h : find_sheet_id sheets sheet = some sid) :
    (add_rows sheets sheet count none
        = .ok ⟨⟨sid, "ROWS", 0, count⟩, false⟩)
    ∧ (add_columns sheets sheet count none
        = .ok ⟨⟨sid, "COLUMNS", 0, count⟩, false⟩)
    ∧ (∀ s : Int, add_rows sheets sheet count (some s)
        = .ok ⟨⟨sid, "ROWS", s, s + count⟩, decide (0 < s)⟩)
    ∧ (∀ s : Int, add_columns sheets sheet count (some s)
        = .ok ⟨⟨sid, "COLUMNS", s, s + count⟩, decide (0 < s)⟩)
    ∧ (∀ (start : Option Int) (req : InsertDimensionRequest),
        add_rows sheets sheet count start = .ok req →
        (req.inheritFromBefore = true ↔ ∃ s, start = some s ∧ 0 < s)) := by
  refine ⟨?_, ?_, fun s => ?_, fun s => ?_, fun start req hr => ?_⟩
  · simp [add_rows, h]
  · simp [add_columns, h]
  · simp [add_rows, h]
  · simp [add_columns, h]
  · cases start with
    | none =>
      simp only [add_rows, h] at hr
      cases hr
      simp
    | some s =>
      simp only [add_rows, h] at hr
      cases hr
      simp

/-- Witness for C4 at the example of the spec: three rows into sheet id 5,
with no start index and with start index 4. -/
theorem C4_witness :
    add_rows [⟨"Sheet1", 5⟩] "Sheet1" 3 none = .ok ⟨⟨5, "ROWS", 0, 3⟩, false⟩
    ∧ add_rows [⟨"Sheet1", 5⟩] "Sheet1" 3 (some 4) = .ok ⟨⟨5, "ROWS", 4, 7⟩, true⟩ := by
  have h := C4_insert_dimension_request [⟨"Sheet1", 5⟩] "Sheet1" 3 5 (by decide)
  refine ⟨h.1, ?_⟩
  rw [h.2.2.1 4]
  decide

/-- C5 counterexample: copy_sheet reports a missing source sheet with the
message Source sheet <name> not found, not the message Sheet <name> not
found that the claim states for every lookup-by-name operation. -/
theorem C5_copy_sheet_message_counterexample :
    copy_sheet (γ := Unit) (fun _ => Except.error "") (fun _ _ => Except.error "")
        [] "Data" "Copy" = Except.ok (OpResult.error (srcNotFoundMsg "Data"))
    ∧ srcNotFoundMsg "Data" ≠ notFoundMsg "Data" := by
  exact ⟨rfl, by decide⟩

/-- C5 (amended): for every sheet name absent from the sheet list,
add_rows, add_columns, delete_sheet, rename_sheet and get_sheet_properties
return the structured error Sheet <name> not found, and copy_sheet returns
the structured error Source sheet <name> not found; none of them raises. -/
theorem C5_lookup_not_found_soft_error (sheets : List SheetProps)
    (name new_name dst : String) (count : Int) (start : Option Int)
    {γ : Type} (copyTo : Int → Except String CopyToResult)
    (renameOp : Int → String → Except String γ)
    (h : find_sheet_id sheets name = none) :
    add_rows sheets name count start = .error (notFoundMsg name)
    ∧ add_columns sheets name count start = .error (notFoundMsg name)
    ∧ delete_sheet sheets name = .error (notFoundMsg name)
    ∧ rename_sheet sheets name new_name = .error (notFoundMsg name)
    ∧ get_sheet_properties sheets name = .error (notFoundMsg name)
    ∧ copy_sheet copyTo renameOp sheets name dst = .ok (.error (srcNotFoundMsg name)) := by
  have hp := find_sheet_props_eq_none sheets name h
  exact ⟨by simp [add_rows, h], by simp [add_columns, h], by simp [delete_sheet, h],
         by simp [rename_sheet, h], by simp [get_sheet_properties, hp],
         by simp [copy_sheet, h]⟩

/-- Witness for C5 (amended) at the empty sheet list. -/
theorem C5_witness :
    delete_sheet [] "X" = .error (notFoundMsg "X")
    ∧ copy_sheet (γ := Unit) (fun _ => Except.error "") (fun _ _ => Except.error "")
        [] "X" "Y" = .ok (.error (srcNotFoundMsg "X")) := by
  have h := C5_lookup_not_found_soft_error [] "X" "N" "Y" 1 none
      (γ := Unit) (fun _ => Except.error "") (fun _ _ => Except.error "") rfl
  exact ⟨h.2.2.1, h.2.2.2.2.2⟩

/-- C7: the qualified address is the sheet name unchanged when the
sub-range is absent or empty, and sheetName!subRange otherwise, with the
literal examples of the spec. -/
theorem C7_full_range_qualification (sheet : String) :
    full_range sheet none = sheet
    ∧ full_range sheet (some "") = sheet
    ∧ (∀ r : String, r ≠ "" → full_range sheet (some r) = sheet ++ "!" ++ r)
    ∧ full_range "Sheet1" (some "A1:C10") = "Sheet1!A1:C10"
    ∧ full_range "Sheet1" none = "Sheet1" := by
  refine ⟨rfl, by simp [full_range, strTruthy], fun r hr => ?_, by decide, rfl⟩
  simp [full_range, strTruthy, hr]

/-- Witness for C7 at a concrete nonempty sub-range. -/
theorem C7_witness :
    full_range "Data" (some "B2:C3") = "Data" ++ "!" ++ "B2:C3" :=
  (C7_full_range_qualification "Data").2.2.1 "B2:C3" (by decide)

/-- C10: create_spreadsheet succeeds even when the move into the
configured working folder fails; the returned id, title, sheet list and
folder are the same as when the move succeeds. -/
theorem C10_create_move_failure_tolerated (title fid : String)
    (sp : CreatedSpreadsheet) (em : String) (h : strTruthy (some fid) = true) :
    create_spreadsheet title (some fid) (.ok sp) (.error em)
      = .ok { spreadsheetId := sp.spreadsheetId, title := sp.title.getD title,
              sheets := sp.sheet_titles.map (fun t => t.getD "Sheet1"), folder := fid }
    ∧ create_spreadsheet title (some fid) (.ok sp) (.error em)
      = create_spreadsheet title (some fid) (.ok sp) (.ok ()) := by
  constructor <;> simp [create_spreadsheet, move_to_folder, h]

/-- Witness for C10 at a concrete created spreadsheet and failing move. -/
theorem C10_witness :
    create_spreadsheet "T" (some "folder1")
        (.ok ⟨some "id1", some "Spread", [some "Tab1"]⟩) (.error "quota")
      = .ok ⟨some "id1", "Spread", ["Tab1"], "folder1"⟩ := by
  have h := C10_create_move_failure_tolerated "T" "folder1"
      ⟨some "id1", some "Spread", [some "Tab1"]⟩ "quota" (by decide)
  rw [h.1]
  rfl

/-- C3: in every multi-item operation each item is processed
independently and in input order: the multi-range fetch returns exactly
the per-query outcomes in input order, a fetch failure being recorded as
that query's error entry; sharing returns the per-recipient successes and
failures filtered in input order, an operation failure being recorded as
that recipient's failure entry; the multi-spreadsheet summary returns the
per-spreadsheet summaries in input order. -/
theorem C3_partial_failure_isolation {α : Type}
    (fetch : String → String → Except String (Option (List (List α))))
    (op : String → String → Except String (Option String))
    (metaFetch : String → Except String SpreadsheetMeta)
    (valuesFetch : String → String → Except String (Option (List (List α))))
    (rows_to_fetch : Int)
    (qs : List Query) (rs : List Recipient) (ids : List String) :
    (get_multiple_sheet_data fetch qs).1 = qs.map (fun q => (processQueryCall fetch q).1)
    ∧ (∀ q e, completeQuery q = true →
        fetch (q.spreadsheet_id.getD "") ((q.sheet.getD "") ++ "!" ++ (q.range.getD ""))
          = .error e →
        (processQueryCall fetch q).1 = ⟨q, none, some e⟩)
    ∧ (share_spreadsheet op rs).1 = rs.filterMap (shareSuccess op)
    ∧ (share_spreadsheet op rs).2.1 = rs.filterMap (shareFailure op)
    ∧ (∀ em ro e, strTruthy (some em) = true →
        ((ro.getD "writer" == "reader") || (ro.getD "writer" == "commenter")
          || (ro.getD "writer" == "writer")) = true →
        op em (ro.getD "writer") = .error e →
        (process_recipient op ⟨some em, ro⟩).1
          = .failure ⟨some em, none, none, some ("Failed to share: " ++ e)⟩)
    ∧ get_multiple_spreadsheet_summary metaFetch valuesFetch rows_to_fetch ids
        = ids.map (summarize_spreadsheet metaFetch valuesFetch rows_to_fetch) := by
  refine ⟨gm_results_eq_map fetch qs, fun q e hc hf => ?_,
          share_succ_eq_filterMap op rs, share_fail_eq_filterMap op rs,
          fun em ro e he hr ho => ?_,
          gms_eq_map metaFetch valuesFetch rows_to_fetch ids⟩
  · simp [processQueryCall, hc, hf]
  · simp [process_recipient, he, hr, ho]

/-- Witness for C3: a complete query whose fetch fails gets the error
recorded, and a valid recipient whose sharing call fails gets the failure
entry, at concrete inputs. -/
theorem C3_witness :
    (processQueryCall (fun _ _ => Except.error "boom")
        ⟨some "s", some "Sheet1", some "A1:B2"⟩).1
      = (⟨⟨some "s", some "Sheet1", some "A1:B2"⟩, none, some "boom"⟩ : QueryOut String)
    ∧ (process_recipient (fun _ _ => Except.error "denied") ⟨some "a@b.c", none⟩).1
      = .failure ⟨some "a@b.c", none, none, some ("Failed to share: " ++ "denied")⟩ := by
  constructor
  · exact (C3_partial_failure_isolation (fun _ _ => Except.error "boom")
      (fun _ _ => Except.error "") (fun _ => Except.error "")
      (fun _ _ => Except.error "") 5 [] [] []).2.1
      ⟨some "s", some "Sheet1", some "A1:B2"⟩ "boom" (by decide) rfl
  · exact (C3_partial_failure_isolation (α := String) (fun _ _ => Except.error "")
      (fun _ _ => Except.error "denied") (fun _ => Except.error "")
      (fun _ _ => Except.error "") 5 [] [] []).2.2.2.2.1
      "a@b.c" none "denied" (by decide) (by decide) rfl

/-- C6: a work item missing a required field is placed directly in the
failures with an error message and the remote call is never invoked for
it: the backend-call log of the multi-range fetch and of sharing is
exactly the per-item calls, and an item missing a required field yields
an error entry together with no backend call. -/
theorem C6_missing_fields_short_circuit {α : Type}
    (fetch : String → String → Except String (Option (List (List α))))
    (op : String → String → Except String (Option String))
    (qs : List Query) (rs : List Recipient) :
    (get_multiple_sheet_data fetch qs).2
        = qs.filterMap (fun q => (processQueryCall fetch q).2)
    ∧ (∀ q, completeQuery q = false →
        processQueryCall fetch q = (⟨q, none, some missingKeysMsg⟩, none))
    ∧ (share_spreadsheet op rs).2.2
        = rs.filterMap (fun r => (process_recipient op r).2)
    ∧ (∀ r, strTruthy r.email_address = false →
        process_recipient op r
          = (.failure ⟨none, none, none, some missingEmailMsg⟩, none)) := by
  refine ⟨gm_calls_eq_filterMap fetch qs, fun q hq => ?_,
          share_calls_eq_filterMap op rs, fun r hr => ?_⟩
  · simp [processQueryCall, hq]
  · simp [process_recipient, hr]

/-- Witness for C6: a query missing its range and a recipient missing its
email are failed directly with no backend call, at concrete inputs. -/
theorem C6_witness :
    processQueryCall (α := String) (fun _ _ => Except.ok (some [["v"]]))
        ⟨some "s", some "Sheet1", none⟩
      = (⟨⟨some "s", some "Sheet1", none⟩, none, some missingKeysMsg⟩, none)
    ∧ process_recipient (fun _ _ => Except.ok (some "pid")) ⟨none, some "writer"⟩
      = (.failure ⟨none, none, none, some missingEmailMsg⟩, none) := by
  constructor
  · exact (C6_missing_fields_short_circuit (fun _ _ => Except.ok (some [["v"]]))
      (fun _ _ => Except.ok (some "pid")) [] []).2.1
      ⟨some "s", some "Sheet1", none⟩ (by decide)
  · exact (C6_missing_fields_short_circuit (α := String)
      (fun _ _ => Except.ok (some [["v"]]))
      (fun _ _ => Except.ok (some "pid")) [] []).2.2.2
      ⟨none, some "writer"⟩ (by decide)

/-- C8: after execution of a multi-item operation every item carries
either a data or result field or an error field, never both: a fetched
query result never has both data and error present; a share success entry
carries no error and a share failure entry carries an error and no
permission id; a spreadsheet summary with an error has no title and no
sheet summaries while one without an error has a title, and a sheet
summary with an error has empty headers and rows. -/
theorem C8_data_xor_error {α : Type}
    (fetch : String → String → Except String (Option (List (List α))))
    (op : String → String → Except String (Option String))
    (metaFetch : String → Except String SpreadsheetMeta)
    (valuesFetch : String → String → Except String (Option (List (List α))))
    (rows_to_fetch : Int)
    (qs : List Query) (rs : List Recipient) (ids : List String) :
    (∀ out ∈ (get_multiple_sheet_data fetch qs).1,
        ¬(out.data.isSome = true ∧ out.error.isSome = true))
    ∧ (∀ e ∈ (share_spreadsheet op rs).1, e.error = none)
    ∧ (∀ e ∈ (share_spreadsheet op rs).2.1,
        e.permissionId = none ∧ e.error.isSome = true)
    ∧ (∀ s ∈ get_multiple_spreadsheet_summary metaFetch valuesFetch rows_to_fetch ids,
        (s.error.isSome = true → s.title = none ∧ s.sheets = [])
        ∧ (s.error = none → s.title.isSome = true)
        ∧ (∀ sh ∈ s.sheets,
            sh.error.isSome = true → sh.headers = [] ∧ sh.first_rows = [])) := by
  refine ⟨fun out hout => ?_, fun e he => ?_, fun e he => ?_, fun s hs => ?_⟩
  · rw [gm_results_eq_map] at hout
    obtain ⟨q, _, rfl⟩ := List.mem_map.1 hout
    exact processQueryCall_exclusive fetch q
  · rw [share_succ_eq_filterMap] at he
    obtain ⟨r, _, hr⟩ := List.mem_filterMap.1 he
    exact process_recipient_success_shape op r e (shareSuccess_eq_some op r e hr)
  · rw [share_fail_eq_filterMap] at he
    obtain ⟨r, _, hr⟩ := List.mem_filterMap.1 he
    exact process_recipient_failure_shape op r e (shareFailure_eq_some op r e hr)
  · rw [gms_eq_map] at hs
    obtain ⟨sid, _, rfl⟩ := List.mem_map.1 hs
    refine ⟨(summarize_spreadsheet_error_shape metaFetch valuesFetch rows_to_fetch sid).1,
            (summarize_spreadsheet_error_shape metaFetch valuesFetch rows_to_fetch sid).2,
            fun sh hsh herr => ?_⟩
    obtain ⟨sm, rfl⟩ := summarize_spreadsheet_sheets_mem metaFetch valuesFetch
      rows_to_fetch sid sh hsh
    exact summarize_sheet_error_shape valuesFetch sid (max 1 rows_to_fetch) sm herr

/-- Witness for C8 at a singleton query whose fetch fails and a singleton
recipient whose sharing succeeds. -/
theorem C8_witness :
    ¬(((⟨⟨some "s", some "Sh", some "A1"⟩, none, some "boom"⟩ : QueryOut String).data.isSome = true)
       ∧ ((⟨⟨some "s", some "Sh", some "A1"⟩, none, some "boom"⟩ : QueryOut String).error.isSome = true))
    ∧ (⟨some "a@b.c", some "writer", some "pid", none⟩ : ShareEntry).error = none := by
  constructor
  · exact (C8_data_xor_error (fun _ _ => Except.error "boom")
      (fun _ _ => Except.ok (some "pid")) (fun _ => Except.error "")
      (fun _ _ => Except.error "") 5 [⟨some "s", some "Sh", some "A1"⟩] [] []).1
      ⟨⟨some "s", some "Sh", some "A1"⟩, none, some "boom"⟩ (by decide)
  · exact (C8_data_xor_error (α := String) (fun _ _ => Except.error "boom")
      (fun _ _ => Except.ok (some "pid")) (fun _ => Except.error "")
      (fun _ _ => Except.error "") 5 [] [⟨some "a@b.c", some "writer"⟩] []).2.1
      ⟨some "a@b.c", some "writer", some "pid", none⟩ (by decide)

/-- C1: credential resolution tries the strategies in fixed priority
order with first success winning: a configured inline blob that parses
takes effect immediately and the service-account file is never read; the
service-account file wins when no inline blob is configured; and the
resolution fails with the all-methods-failed authentication error only
when every strategy has failed: no inline blob, no usable service-account
file, no usable stored token, a failed consent flow and failed ambient
discovery. -/
theorem C1_credential_chain (env : AuthEnv) :
    (env.credentials_config = true → env.inline_parse = Except.ok () →
      authenticate_google_services env
        = ([AuthStep.parseInline], AuthOutcome.ok CredKind.inline)
      ∧ AuthStep.readServiceFile ∉ (authenticate_google_services env).1)
    ∧ (env.credentials_config = false → env.service_account_path = true →
        env.service_account_exists = true → env.service_file_load = Except.ok () →
        authenticate_google_services env
          = ([AuthStep.readServiceFile], AuthOutcome.ok CredKind.serviceAccount))
    ∧ (∀ msg, (authenticate_google_services env).2 = AuthOutcome.allFailed msg →
        msg = allFailedMsg
        ∧ env.credentials_config = false
        ∧ (env.service_account_path = false ∨ env.service_account_exists = false
            ∨ ∃ e, env.service_file_load = Except.error e)
        ∧ (∃ e, env.oauth_flow = Except.error e)
        ∧ (env.token_exists = false
            ∨ ∃ tc, env.token_load = Except.ok tc ∧ tc.valid = false
                ∧ (tc.expired && tc.refresh_token) = false)
        ∧ (∃ e, env.adc = Except.error e)) := by
  refine ⟨fun hc hp => ?_, fun hc hp he hl => ?_, fun msg h => ?_⟩
  · have heq : authenticate_google_services env
        = ([AuthStep.parseInline], AuthOutcome.ok CredKind.inline) := by
      simp [authenticate_google_services, hc, hp]
    exact ⟨heq, by rw [heq]; simp⟩
  · simp [authenticate_google_services, auth_service_file, hc, hp, he, hl]
  · unfold authenticate_google_services at h
    by_cases hc : env.credentials_config = true
    · simp only [hc, if_true] at h
      cases hip : env.inline_parse <;> rw [hip] at h <;> simp at h
    · simp only [Bool.not_eq_true] at hc
      simp only [hc, Bool.false_eq_true, if_false] at h
      obtain ⟨h2a, h2b⟩ := auth_service_allFailed env msg h
      obtain ⟨hm, hf, htk, ha⟩ := auth_oauth_allFailed env msg h2b
      exact ⟨hm, hc, h2a, hf, htk, ha⟩

/-- Witness for C1: with an inline blob configured and parsing, the inline
credential wins and the file is untouched; with every strategy failing,
the all-methods-failed error is reached and ambient discovery indeed
failed. -/
theorem C1_witness :
    authenticate_google_services
        ⟨true, Except.ok (), true, true, Except.ok (), false, Except.error "t",
         Except.ok (), Except.ok (), Except.ok ()⟩
      = ([AuthStep.parseInline], AuthOutcome.ok CredKind.inline)
    ∧ ∃ e, (⟨false, Except.ok (), false, false, Except.error "s", false,
              Except.error "t", Except.error "r", Except.error "flow",
              Except.error "adc"⟩ : AuthEnv).adc = Except.error e := by
  constructor
  · exact ((C1_credential_chain
      ⟨true, Except.ok (), true, true, Except.ok (), false, Except.error "t",
       Except.ok (), Except.ok (), Except.ok ()⟩).1 rfl rfl).1
  · exact ((C1_credential_chain
      ⟨false, Except.ok (), false, false, Except.error "s", false,
       Except.error "t", Except.error "r", Except.error "flow",
       Except.error "adc"⟩).2.2 allFailedMsg rfl).2.2.2.2.2

end GoogleSheetsMCP
